import Mathlib

/-!
Verification development for the schemanyd repository.

The Python sources are shallowly embedded:
* `src/schemanyd/utility/graph.py` — the graph model (`Table`, `Column`,
  `Relationship`) and the `SQLAlchemySchemaConverter.convert` two-pass builder;
* `src/schemanyd/utility/table_argument.py` — the table-argument hierarchy,
  flattened into one inductive `Argument` (each Python object carries its
  identity; we model object identity with a serial `id` field, so structural
  equality of the embedding coincides with Python `is` / list membership);
* `src/schemanyd/utility/database.py` — `Database.build_graph`;
* `src/schemanyd/utility/path_assistant.py` — `PathAssistant.find_join_path`
  and `PathAssistant.find_shortest_path`;
* the autotrace insertion engine, whose body in the repository is an
  unimplemented stub (`pass`), is modelled from the specification (§4.4).

Python exceptions are modelled with `Except`: a raised exception is an
`Except.error` carrying the exception kind and message.
-/

namespace Schemanyd

/-- Decidable equality for `Except`, so concrete runs of the embedded code
can be settled by `decide`. -/
instance {ε α : Type} [DecidableEq ε] [DecidableEq α] : DecidableEq (Except ε α) := fun x y =>
  match x, y with
  | .ok a, .ok b =>
      if h : a = b then isTrue (by rw [h])
      else isFalse (fun hh => h (Except.ok.inj hh))
  | .error a, .error b =>
      if h : a = b then isTrue (by rw [h])
      else isFalse (fun hh => h (Except.error.inj hh))
  | .ok _, .error _ => isFalse (fun hh => Except.noConfusion hh)
  | .error _, .ok _ => isFalse (fun hh => Except.noConfusion hh)

/-- Python exception values raised by the embedded code paths. -/
inductive PyError where
  /-- `TypeError` (e.g. an unexpected keyword argument). -/
  | typeError (msg : String) : PyError
  /-- `ValueError` with its message. -/
  | valueError (msg : String) : PyError
  /-- `AttributeError` (e.g. attribute access on `None`). -/
  | attributeError (msg : String) : PyError
  /-- `IndexError` (list index out of range). -/
  | indexError (msg : String) : PyError
  /-- `KeyError` carrying the repr of the missing dictionary key. -/
  | keyError (msg : String) : PyError
  /-- Artifact of the fueled embedding of the BFS loop; unreachable for the
  fuel supplied by `find_shortest_path`. -/
  | nonTermination : PyError
  deriving Repr, DecidableEq

/-! ## Engine-agnostic schema description

The converter consumes a SQLAlchemy `MetaData` object.  We embed exactly the
fields `SQLAlchemySchemaConverter.convert` and `Database.build_graph` read from
it: per column `name`, `type`, `nullable`, `default`, `primary_key` and the
presence of `foreign_keys`; per table `columns`, `indexes`, `constraints`
(and, through the primary-key constraint, `primary_key.columns`). -/

/-- One column of the schema description (the fields of a SQLAlchemy `Column`
that the converter reads).  `foreign_keys` models `bool(column.foreign_keys)`,
i.e. whether the column participates in any foreign-key constraint. -/
structure DescColumn where
  name : String
  data_type : String
  nullable : Bool
  /-- the client-side `default` of the column (`None` when absent) -/
  dflt : Option String
  primary_key : Bool
  foreign_keys : Bool
  deriving Repr, DecidableEq

/-- One index of the schema description (columns by name, index name). -/
structure DescIndex where
  columns : List String
  name : String
  deriving Repr, DecidableEq

/-- One constraint of the schema description, by kind.  Columns are given by
name.  For the primary-key constraint the columns are those of
`table.primary_key.columns` (in SQLAlchemy the table's `PrimaryKeyConstraint`
is that very object). -/
inductive DescConstraint where
  | foreignKey (columns : List String) (referred_table : String)
      (referred_columns : List String) (name : String) : DescConstraint
  | primaryKey (columns : List String) (name : String) : DescConstraint
  | unique (columns : List String) (name : String) : DescConstraint
  | check (columns : List String) (condition : String) (name : String) : DescConstraint
  deriving Repr, DecidableEq

/-- One table of the schema description. -/
structure DescTable where
  name : String
  columns : List DescColumn
  indexes : List DescIndex
  constraints : List DescConstraint
  deriving Repr, DecidableEq

/-- The schema description: the `tables` mapping of a `MetaData` object, in
insertion order. -/
structure MetaDataDesc where
  tables : List DescTable
  deriving Repr, DecidableEq

/-! ## The graph model (`graph.py` / `table_argument.py`) -/

/-- `Column` of `graph.py`.  The Python object holds a back-reference to its
owning `Table`; we record the table's name.  The per-column `arguments` list
(written by the converter's attachment loop, read nowhere in the repository)
is not modelled.  Note that `convert` constructs every `Column` without
passing `nullable` or `default`, so those fields keep their constructor
defaults (`True` / `None`) regardless of the description. -/
structure Column where
  table_name : String
  name : String
  data_type : String
  nullable : Bool
  dflt : Option String
  is_primary_key : Bool
  is_foreign_key : Bool
  deriving Repr, DecidableEq

/-- The table-argument hierarchy of `table_argument.py`, flattened into one
inductive.  Each constructor records the creation serial `id` (modelling
Python object identity), the owning table's name, and the columns by name.
`DefaultConstraint` has no constructor here because the only call site in the
repository (`convert`, pass 1) passes the keyword `default` while the
constructor's parameter is `default_value`, so that call raises `TypeError`
before any `DefaultConstraint` object exists. -/
inductive Argument where
  | index (id : Nat) (table : String) (columns : List String) (name : String) : Argument
  | unique (id : Nat) (table : String) (columns : List String) (name : String) : Argument
  | primaryKey (id : Nat) (table : String) (columns : List String) (name : String) : Argument
  | foreignKey (id : Nat) (table : String) (columns : List String)
      (referenced_table : String) (referenced_columns : List String) (name : String) : Argument
  | check (id : Nat) (table : String) (columns : List String) (condition : String)
      (name : String) : Argument
  | notNull (id : Nat) (table : String) (column : String) : Argument
  deriving Repr, DecidableEq

/-- `Relationship._determine_relationship_type` of `graph.py`: the branch
order is the source's (`OneToMany` is tested first). -/
def determine_relationship_type (source target : Column) : String :=
  if source.is_primary_key && target.is_foreign_key then "OneToMany"
  else if source.is_foreign_key && target.is_primary_key then "ManyToOne"
  else if source.is_foreign_key && target.is_foreign_key then "ManyToMany"
  else "Unknown"

/-- `Relationship` of `graph.py` (a graph edge).  `id` is the creation serial
modelling Python object identity. -/
structure Relationship where
  id : Nat
  source : Column
  target : Column
  relationship_type : String
  deriving Repr, DecidableEq

/-- The `Relationship` constructor: the relationship type is computed from the
endpoints at construction time. -/
def Relationship.make (id : Nat) (source target : Column) : Relationship :=
  ⟨id, source, target, determine_relationship_type source target⟩

/-- `Table` of `graph.py` (a graph node).  `columns` models the Python
name-keyed dict in insertion order. -/
structure Table where
  name : String
  columns : List Column
  relationships : List Relationship
  arguments : List Argument
  deriving Repr, DecidableEq

/-- Dict assignment `self.columns[column.name] = column`: overwrite in place
when the name is present, append otherwise. -/
def upsertColumn : List Column → Column → List Column
  | [], c => [c]
  | d :: ds, c => if d.name = c.name then c :: ds else d :: upsertColumn ds c

/-- `Table.add_column`. -/
def Table.add_column (t : Table) (c : Column) : Table :=
  { t with columns := upsertColumn t.columns c }

/-- `self.columns.get(name, None)`: the stored column, if any. -/
def Table.get_col? (t : Table) (name : String) : Option Column :=
  t.columns.find? (fun c => c.name = name)

/-- `Table.get_column_by_name`: returns the stored column or `None`; raises
`ValueError` when `throw_error` is set and the column is absent. -/
def Table.get_column_by_name (t : Table) (name : String) (throw_error : Bool) :
    Except String (Option Column) :=
  match t.get_col? name with
  | some c => .ok (some c)
  | none =>
      if throw_error then
        .error ("Column \x27" ++ name ++ "\x27 not found in table \x27" ++ t.name ++ "\x27")
      else .ok none

/-- `Table.add_relationship`: append unless already contained. -/
def Table.add_relationship (t : Table) (r : Relationship) : Table :=
  if r ∈ t.relationships then t
  else { t with relationships := t.relationships ++ [r] }

/-- `Table.add_argument`: append unless already contained. -/
def Table.add_argument (t : Table) (a : Argument) : Table :=
  if a ∈ t.arguments then t
  else { t with arguments := t.arguments ++ [a] }

/-! ## `SQLAlchemySchemaConverter.convert` (graph.py, two passes) -/

/-- `TypeError` raised by pass 1 when a column carries a default: the call
`DefaultConstraint(table=..., column=..., default=...)` passes the keyword
`default`, but the constructor parameter is named `default_value`. -/
def default_keyword_type_error_message : String :=
  "DefaultConstraint.__init__() got an unexpected keyword argument \x27default\x27"

/-- `ValueError` message of the composite-foreign-key rejection. -/
def composite_key_message : String :=
  "Schemanyd is not able to handle composite foreign keys yet. Unfortunately, you would need to adjust your schema to utilize Schemanyd."

/-- Generic `AttributeError` message for attribute access on `None` (reached
only on ill-formed descriptions; the exact attribute named by CPython depends
on the access site). -/
def none_attribute_message : String := "\x27NoneType\x27 object has no attribute"

/-- `table_lookup.get(name)` / lookup of a table by name in the running state. -/
def lookupTable (ts : List Table) (name : String) : Option Table :=
  ts.find? (fun t => t.name = name)

/-- Replace the table named `name` by `f` of it (Python mutates the shared
`Table` object in place; table names are unique in a `MetaData`). -/
def updateTable (ts : List Table) (name : String) (f : Table → Table) : List Table :=
  ts.map (fun t => if t.name = name then f t else t)

/-- Check that every named column exists in `t`.  In Python the lookups store
`None` silently and the `AttributeError` surfaces a few lines later, at the
argument-attachment loop or at relation creation; the attachment loop is not
otherwise observable in this model, so the error is raised at creation. -/
def requireCols (t : Table) (names : List String) : Except PyError (List String) :=
  names.foldlM
    (fun acc n =>
      match t.get_col? n with
      | some _ => .ok (acc ++ [n])
      | none => .error (.attributeError none_attribute_message))
    []

/-- Running state of `convert`: the tables built so far (pass 1 order, shared
by reference in Python), the relationship edges, and the next object serial. -/
structure ConvState where
  tables : List Table
  edges : List Relationship
  nextId : Nat
  deriving Repr, DecidableEq

/-- Pass 1, one column: create the `Column` (without passing `nullable` or
`default`, as the source does), `add_column` it, create a
`NotNullConstraint` argument when the description says not nullable, and
raise `TypeError` when the description carries a default (see
`default_keyword_type_error_message`). -/
def pass1Column (tname : String) (acc : Table × Nat) (c : DescColumn) :
    Except PyError (Table × Nat) :=
  let col : Column := ⟨tname, c.name, c.data_type, true, none, c.primary_key, c.foreign_keys⟩
  let t := acc.1.add_column col
  let (t, nid) :=
    if !c.nullable then (t.add_argument (.notNull acc.2 tname c.name), acc.2 + 1)
    else (t, acc.2)
  if c.dflt.isSome then .error (.typeError default_keyword_type_error_message)
  else .ok (t, nid)

/-- Pass 1, one table: a fresh `Table` populated by its columns. -/
def pass1Table (startId : Nat) (dt : DescTable) : Except PyError (Table × Nat) :=
  dt.columns.foldlM (pass1Column dt.name) (⟨dt.name, [], [], []⟩, startId)

/-- Pass 1 over the whole description. -/
def pass1 (d : MetaDataDesc) : Except PyError (List Table × Nat) :=
  d.tables.foldlM
    (fun (acc : List Table × Nat) dt => do
      let (t, nid) ← pass1Table acc.2 dt
      .ok (acc.1 ++ [t], nid))
    ([], 0)

/-- Pass 2, creation of one constraint argument on the table named `tname`. -/
def addConstraintArg (ts : List Table) (tname : String) (nid : Nat) (c : DescConstraint) :
    Except PyError (List Table × Nat) :=
  match lookupTable ts tname with
  | none => .error (.attributeError none_attribute_message)
  | some t =>
    match c with
    | .foreignKey cols rtname rcols cname => do
        match lookupTable ts rtname with
        | none => .error (.attributeError none_attribute_message)
        | some rt => do
          let rcols2 ← requireCols rt rcols
          let cols2 ← requireCols t cols
          .ok (updateTable ts tname
                (fun t2 => t2.add_argument (.foreignKey nid tname cols2 rtname rcols2 cname)),
               nid + 1)
    | .primaryKey cols cname => do
        let cols2 ← requireCols t cols
        .ok (updateTable ts tname
              (fun t2 => t2.add_argument (.primaryKey nid tname cols2 cname)), nid + 1)
    | .unique cols cname => do
        let cols2 ← requireCols t cols
        .ok (updateTable ts tname
              (fun t2 => t2.add_argument (.unique nid tname cols2 cname)), nid + 1)
    | .check cols cond cname => do
        let cols2 ← requireCols t cols
        .ok (updateTable ts tname
              (fun t2 => t2.add_argument (.check nid tname cols2 cond cname)), nid + 1)

/-- Pass 2, relation creation from one argument of the current table: only
`ForeignKeyConstraint` arguments produce a `Relationship`.  The composite-key
rejection is the source's literal condition
`len(argument.columns) != 1 and len(argument.referenced_columns) != 1`. -/
def mkRelation (st : ConvState) (a : Argument) : Except PyError ConvState :=
  match a with
  | .foreignKey _ tname cols rtname rcols _ =>
    if cols.length != 1 && rcols.length != 1 then
      .error (.valueError composite_key_message)
    else
      match cols with
      | [] => .error (.indexError "list index out of range")
      | c0 :: _ =>
        match rcols with
        | [] => .error (.indexError "list index out of range")
        | r0 :: _ =>
          match lookupTable st.tables tname with
          | none => .error (.attributeError none_attribute_message)
          | some t =>
            match t.get_col? c0 with
            | none => .error (.attributeError none_attribute_message)
            | some source =>
              match lookupTable st.tables rtname with
              | none => .error (.attributeError none_attribute_message)
              | some rt =>
                match rt.get_col? r0 with
                | none => .error (.attributeError none_attribute_message)
                | some target =>
                  let rel := Relationship.make st.nextId source target
                  let ts := updateTable st.tables source.table_name
                    (fun t2 => t2.add_relationship rel)
                  let ts := updateTable ts target.table_name
                    (fun t2 => t2.add_relationship rel)
                  .ok ⟨ts, st.edges ++ [rel], st.nextId + 1⟩
  | _ => .ok st

/-- Pass 2 over one table: indexes, constraints, then the relation loop over
the table's (now complete) argument list.  The attachment of arguments to the
columns they affect is not modelled (per-column argument lists are read
nowhere in the repository). -/
def pass2Table (st : ConvState) (dt : DescTable) : Except PyError ConvState := do
  let (ts, nid) ← dt.indexes.foldlM
    (fun (acc : List Table × Nat) ix =>
      match lookupTable acc.1 dt.name with
      | none => .error (.attributeError none_attribute_message)
      | some t => do
        let cols ← requireCols t ix.columns
        .ok (updateTable acc.1 dt.name
              (fun t2 => t2.add_argument (.index acc.2 dt.name cols ix.name)), acc.2 + 1))
    (st.tables, st.nextId)
  let (ts, nid) ← dt.constraints.foldlM
    (fun (acc : List Table × Nat) c => addConstraintArg acc.1 dt.name acc.2 c) (ts, nid)
  match lookupTable ts dt.name with
  | none => .error (.attributeError none_attribute_message)
  | some t => t.arguments.foldlM mkRelation ⟨ts, st.edges, nid⟩

/-- `SQLAlchemySchemaConverter.convert`: pass 1 creates every table with its
columns, pass 2 attaches the arguments and derives the relationships. -/
def convert (metadata : MetaDataDesc) : Except PyError (List Table × List Relationship) := do
  let (ts, nid) ← pass1 metadata
  let st ← metadata.tables.foldlM pass2Table ⟨ts, [], nid⟩
  .ok (st.tables, st.edges)

/-! ## The `Graph` class and its converter registry -/

/-- The registered schema converters; `register_converters()` installs exactly
the SQLAlchemy converter. -/
inductive SchemaConverterKind where
  | sqlalchemy : SchemaConverterKind
  deriving Repr, DecidableEq

/-- `Graph._SCHEMA_CONVERTERS` after `register_converters()`. -/
def SCHEMA_CONVERTERS : List (String × SchemaConverterKind) :=
  [("sqlalchemy", .sqlalchemy)]

/-- Insert into a sorted list of strings (helper for `sorted(...)`). -/
def insertSorted (s : String) : List String → List String
  | [] => [s]
  | x :: xs => if s ≤ x then s :: x :: xs else x :: insertSorted s xs

/-- `Graph.get_supported_schema_types`: the sorted registry keys. -/
def get_supported_schema_types : List String :=
  (SCHEMA_CONVERTERS.map Prod.fst).foldr insertSorted []

/-- `", ".join(self.get_supported_schema_types()) or "none"`. -/
def available_types_string : String :=
  match get_supported_schema_types with
  | [] => "none"
  | ks => String.intercalate ", " ks

/-- `Graph._load_converter`: the registered converter, or `ValueError` naming
the unsupported type and the available registered types. -/
def load_converter (schema_type : String) : Except PyError SchemaConverterKind :=
  match SCHEMA_CONVERTERS.find? (fun p => p.1 = schema_type) with
  | some p => .ok p.2
  | none =>
      .error (.valueError
        ("Error: Unsupported schema type \x27" ++ schema_type ++
         "\x27, available types are: [" ++ available_types_string ++ "]"))

/-- The `Graph` object: the schema, its type tag, and the converted nodes and
edges. -/
structure Graph where
  schema : MetaDataDesc
  schema_type : String
  nodes : List Table
  edges : List Relationship
  deriving Repr, DecidableEq

/-- `Graph.__init__`: load the converter for `schema_type`, then convert.  A
raised exception means no `Graph` object is constructed. -/
def Graph.build (schema : MetaDataDesc) (schema_type : String) : Except PyError Graph := do
  let _converter ← load_converter schema_type
  let (ns, es) ← convert schema
  .ok ⟨schema, schema_type, ns, es⟩

/-! ## `Database.build_graph` (database.py) and `PathAssistant` (path_assistant.py)

`Database.build_graph` builds a dictionary whose KEYS are the SQLAlchemy
`Table` objects of the schema while the VALUES are lists of table NAME
strings (`fk.column.table.name`).  `PathAssistant.find_shortest_path` then
indexes this dictionary with whatever flows through its queue — the caller's
`start` and the string neighbors.  To embed this heterogeneity we model the
Python values that can occur as graph nodes: -/

/-- A Python value used as a node by `find_shortest_path`: either a SQLAlchemy
`Table` object (identified by its name — names are unique in a `MetaData`) or
a plain string.  A `Table` object never equals a string. -/
inductive PyVal where
  | table (name : String) : PyVal
  | str (s : String) : PyVal
  deriving Repr, DecidableEq

/-- Python repr of a string key, as it appears in a `KeyError`. -/
def pyStrRepr (s : String) : String := "\x27" ++ s ++ "\x27"

/-- Repr of a `PyVal` dictionary key for `KeyError` messages. -/
def PyVal.reprKey : PyVal → String
  | .table n => "Table(" ++ pyStrRepr n ++ ")"
  | .str s => pyStrRepr s

/-- The referred-table name of every foreign-key element of the table
(`fk.column.table.name for fk in table.foreign_keys`): one entry per local
foreign-key column of each foreign-key constraint.  SQLAlchemy stores
`foreign_keys` as a set with unspecified order; constraint order is used
here (the claims settled below use at most one element per table, where the
order is immaterial). -/
def fk_target_names (dt : DescTable) : List String :=
  dt.constraints.foldl
    (fun acc c =>
      match c with
      | .foreignKey cols rt _ _ => acc ++ cols.map (fun _ => rt)
      | _ => acc)
    []

/-- `Database.build_graph`: `graph[table] = [fk.column.table.name for fk in
table.foreign_keys]` — keys are the `Table` objects, values are lists of
table name strings. -/
def db_build_graph (schema : MetaDataDesc) : List (PyVal × List String) :=
  schema.tables.map (fun dt => (PyVal.table dt.name, fk_target_names dt))

/-- `self.graph[node]`: dictionary lookup, raising `KeyError` on a missing
key. -/
def graphLookup (g : List (PyVal × List String)) (k : PyVal) :
    Except PyError (List String) :=
  match g.find? (fun p => p.1 = k) with
  | some p => .ok p.2
  | none => .error (.keyError k.reprKey)

/-- The inner `for neighbor in self.graph[node]` loop of
`find_shortest_path`: mark unvisited neighbors visited, return the extended
path as soon as the neighbor equals `goal`, otherwise enqueue it.  Returns
(early result, visited, queue). -/
def expandNeighbors (goal : PyVal) (path : List PyVal) :
    List String → List PyVal → List (PyVal × List PyVal) →
    Option (List PyVal) × List PyVal × List (PyVal × List PyVal)
  | [], visited, queue => (none, visited, queue)
  | n :: ns, visited, queue =>
    let v := PyVal.str n
    if v ∈ visited then expandNeighbors goal path ns visited queue
    else
      let visited2 := visited ++ [v]
      let path2 := path ++ [v]
      if v = goal then (some path2, visited2, queue)
      else expandNeighbors goal path ns visited2 (queue ++ [(v, path2)])

/-- The `while queue` loop of `find_shortest_path`, fueled (the fuel supplied
by `find_shortest_path` always suffices, see `bfs_fuel`-style bound in the
comment there). -/
def bfsLoop (g : List (PyVal × List String)) (goal : PyVal) :
    Nat → List (PyVal × List PyVal) → List PyVal →
    Except PyError (Option (List PyVal))
  | _, [], _ => .ok none
  | 0, _ :: _, _ => .error .nonTermination
  | fuel + 1, (node, path) :: queue, visited => do
    let neighbors ← graphLookup g node
    match expandNeighbors goal path neighbors visited queue with
    | (some answer, _, _) => .ok (some answer)
    | (none, visited2, queue2) => bfsLoop g goal fuel queue2 visited2

/-- `PathAssistant.find_shortest_path`.  Every pop consumes one earlier
enqueue; every enqueue (after the initial one) adds a new string to
`visited`, and those strings come from the adjacency lists, so the number of
loop iterations is at most `2 +` the total length of the adjacency lists —
the fuel used here. -/
def find_shortest_path (g : List (PyVal × List String)) (start goal : PyVal) :
    Except PyError (Option (List PyVal)) :=
  if start = goal then .ok (some [start])
  else bfsLoop g goal ((g.map (fun p => p.2.length)).sum + 2) [(start, [start])] [start]

/-- `set(self.schema.tables.keys())` of `PathAssistant.__init__`: the table
names of the schema. -/
def all_table_names (schema : MetaDataDesc) : List String :=
  schema.tables.map (fun dt => dt.name)

/-- Python repr of a list of strings, as printed by an f-string. -/
def pyListRepr (l : List String) : String :=
  "[" ++ String.intercalate ", " (l.map pyStrRepr) ++ "]"

/-- The tables of `required_tables` absent from the schema, in order. -/
def missing_tables (all_tables required : List String) : List String :=
  required.filter (fun t => !all_tables.contains t)

/-- The diagnostic printed by `find_join_path` when tables are missing. -/
def join_path_error_message (missing : List String) : String :=
  "Error: The following required tables were not found in the schema: " ++ pyListRepr missing

/-- `PathAssistant.find_join_path`: validate every required table against the
schema before any resolution; on failure the function reports the complete
list of missing tables in one diagnostic and aborts (in Python: prints the
message and returns `None` early).  `Except.error` carries that diagnostic. -/
def find_join_path (all_tables required : List String) : Except String Unit :=
  let missing := missing_tables all_tables required
  if missing.isEmpty then .ok () else .error (join_path_error_message missing)

/-! ## Autotrace insertion engine

Modelled from the spec: the bodies of `Schemanyd.insert`
(src/schemanyd/schemanyd.py) and `insert` (src/schemanyd/input/insert.py) are
unimplemented stubs (`pass` followed by a comment outline), so the engine of
spec §4.4 is modelled here from the spec's words: wave selection by satisfied
foreign-key dependencies, per-table per-row identity resolution
(matched / inserted / ambiguous-identity / failed), key propagation, and an
`InsertReport` of ordered wave summaries, per-row-per-table outcomes and
overall counts. -/

/-- Modelled from the spec: one mapped table of a resolved mapping — its
name, the mapped tables its foreign keys depend on, whether some NOT NULL
column is never populated by the mapping (`MissingRequiredColumn`), and
whether the projected columns cover a non-foreign-key uniqueness
constraint. -/
structure ResolvedTable where
  name : String
  deps : List String
  missingRequired : Bool
  identityCovered : Bool
  deriving Repr, DecidableEq

/-- Modelled from the spec: the outcome of one row at one table. -/
inductive RowOutcome where
  | inserted (key : Nat) : RowOutcome
  | matched (key : Nat) : RowOutcome
  | ambiguous (key : Nat) : RowOutcome
  | failed (reason : String) : RowOutcome
  deriving Repr, DecidableEq

/-- Per-table block of per-row outcomes (rows in input order). -/
structure TableOutcomes where
  table : String
  outcomes : List RowOutcome
  deriving Repr, DecidableEq

/-- Modelled from the spec: the `InsertReport` — ordered wave summaries,
per-row-per-table outcomes, and overall counts. -/
structure InsertReport where
  waves : List (List String)
  results : List TableOutcomes
  insertedCount : Nat
  matchedCount : Nat
  ambiguousCount : Nat
  failedCount : Nat
  deriving Repr, DecidableEq

/-- `CyclicOrUnsatisfiableDependency` naming the stuck tables. -/
def cyclic_error_message (stuck : List String) : String :=
  "CyclicOrUnsatisfiableDependency: " ++ String.intercalate ", " stuck

/-- A table is eligible for the current wave once every dependency is already
processed. -/
def eligibleIn (processed : List String) (t : ResolvedTable) : Bool :=
  t.deps.all (fun d => processed.contains d)

/-- Wave computation (fueled; the fuel `m.length` always suffices because a
nonempty wave is peeled off at every step). -/
def computeWavesAux : Nat → List ResolvedTable → List String →
    Except String (List (List ResolvedTable))
  | _, [], _ => .ok []
  | 0, remaining, _ => .error (cyclic_error_message (remaining.map (fun t => t.name)))
  | fuel + 1, remaining, processed =>
    let elig := remaining.filter (eligibleIn processed)
    if elig.isEmpty then .error (cyclic_error_message (remaining.map (fun t => t.name)))
    else
      (computeWavesAux fuel (remaining.filter (fun t => !eligibleIn processed t))
          (processed ++ elig.map (fun t => t.name))).map
        (fun ws => elig :: ws)

/-- Modelled from the spec: the ordered waves of the insertion plan, or
`CyclicOrUnsatisfiableDependency`. -/
def computeWaves (m : List ResolvedTable) : Except String (List (List ResolvedTable)) :=
  computeWavesAux m.length m []

/-- Modelled from the spec: identity resolution of one row at one table.
`lookup` is the storage executor's "find matching record key"; `nextKey` the
next generated surrogate key. -/
def rowOutcome (strict : Bool) (lookup : String → Nat → Option Nat)
    (t : ResolvedTable) (i nextKey : Nat) : RowOutcome × Nat :=
  if t.missingRequired then (.failed "MissingRequiredColumn", nextKey)
  else if !t.identityCovered then
    if strict then (.failed "InsufficientIdentityColumns", nextKey)
    else (.ambiguous nextKey, nextKey + 1)
  else
    match lookup t.name i with
    | some k => (.matched k, nextKey)
    | none => (.inserted nextKey, nextKey + 1)

/-- Process every row at one table, threading the key counter. -/
def processTable (strict : Bool) (lookup : String → Nat → Option Nat)
    (t : ResolvedTable) (rowCount nextKey : Nat) : List RowOutcome × Nat :=
  (List.range rowCount).foldl
    (fun (acc : List RowOutcome × Nat) i =>
      (acc.1 ++ [(rowOutcome strict lookup t i acc.2).1],
       (rowOutcome strict lookup t i acc.2).2))
    ([], nextKey)

/-- Bump the report's overall counters for one outcome. -/
def bump (acc : InsertReport) (o : RowOutcome) : InsertReport :=
  match o with
  | .inserted _ => { acc with insertedCount := acc.insertedCount + 1 }
  | .matched _ => { acc with matchedCount := acc.matchedCount + 1 }
  | .ambiguous _ => { acc with ambiguousCount := acc.ambiguousCount + 1 }
  | .failed _ => { acc with failedCount := acc.failedCount + 1 }

/-- Run one table within a wave: record its per-row outcomes and update the
overall counters. -/
def runTable (strict : Bool) (lookup : String → Nat → Option Nat) (rowCount : Nat)
    (st : InsertReport × Nat) (t : ResolvedTable) : InsertReport × Nat :=
  let (os, key2) := processTable strict lookup t rowCount st.2
  let r1 := os.foldl bump st.1
  ({ r1 with results := r1.results ++ [⟨t.name, os⟩] }, key2)

/-- Run one wave (its tables in order). -/
def runWave (strict : Bool) (lookup : String → Nat → Option Nat) (rowCount : Nat)
    (st : InsertReport × Nat) (wave : List ResolvedTable) : InsertReport × Nat :=
  wave.foldl (runTable strict lookup rowCount) st

/-- Run the waves in order (the strict sequential barrier of §5). -/
def runWaves (strict : Bool) (lookup : String → Nat → Option Nat) (rowCount : Nat)
    (waves : List (List ResolvedTable)) (st : InsertReport × Nat) : InsertReport × Nat :=
  waves.foldl (runWave strict lookup rowCount) st

/-- Modelled from the spec: `insert(resolved_mapping, rows) -> InsertReport`.
The row stream is abstracted to its length `rowCount` and the storage
executor's lookup oracle. -/
def insertRun (m : List ResolvedTable) (rowCount : Nat)
    (lookup : String → Nat → Option Nat) (strict : Bool) :
    Except String InsertReport := do
  let waves ← computeWaves m
  let wnames := waves.map (fun w => w.map (fun t => t.name))
  .ok (runWaves strict lookup rowCount waves (⟨wnames, [], 0, 0, 0, 0⟩, 0)).1

/-- Outcome classifiers for the overall counts. -/
def RowOutcome.isInserted : RowOutcome → Bool
  | .inserted _ => true
  | _ => false

/-- Outcome classifier: matched. -/
def RowOutcome.isMatched : RowOutcome → Bool
  | .matched _ => true
  | _ => false

/-- Outcome classifier: ambiguous-identity. -/
def RowOutcome.isAmbiguous : RowOutcome → Bool
  | .ambiguous _ => true
  | _ => false

/-- Outcome classifier: failed. -/
def RowOutcome.isFailed : RowOutcome → Bool
  | .failed _ => true
  | _ => false

/-- Tally of outcomes satisfying `p` across a report's result blocks. -/
def countRows (p : RowOutcome → Bool) (rs : List TableOutcomes) : Nat :=
  (rs.map (fun e => (e.outcomes.filter p).length)).sum

/-! ## Decidable observations on descriptions used by the claims -/

/-- Does the description contain a composite (multi-column) foreign key? -/
def containsCompositeFK (d : MetaDataDesc) : Bool :=
  d.tables.any (fun t =>
    t.constraints.any (fun c =>
      match c with
      | .foreignKey cols _ rcols _ => 1 < cols.length || 1 < rcols.length
      | _ => false))

/-- Are all foreign keys of the description single-column? -/
def allFKsSingleColumn (d : MetaDataDesc) : Bool :=
  d.tables.all (fun t =>
    t.constraints.all (fun c =>
      match c with
      | .foreignKey cols _ rcols _ => cols.length == 1 && rcols.length == 1
      | _ => true))

/-! ## Concrete schema descriptions exercising the failure paths -/

/-- A description with a composite foreign key whose child table also carries
a column with a default. -/
def descCompositeWithDefault : MetaDataDesc :=
  ⟨[⟨"parent",
      [⟨"a", "INTEGER", false, none, true, false⟩,
       ⟨"b", "INTEGER", false, none, true, false⟩],
      [],
      [.primaryKey ["a", "b"] "pk_parent"]⟩,
    ⟨"child",
      [⟨"x", "INTEGER", true, some "0", false, true⟩,
       ⟨"y", "INTEGER", true, none, false, true⟩],
      [],
      [.foreignKey ["x", "y"] "parent" ["a", "b"] "fk_child_parent"]⟩]⟩

/-- A description whose only foreign key is single-column, with one column
carrying a default. -/
def descSingleFKWithDefault : MetaDataDesc :=
  ⟨[⟨"country",
      [⟨"id", "INTEGER", false, none, true, false⟩,
       ⟨"name", "VARCHAR", true, some "unknown", false, false⟩],
      [],
      [.primaryKey ["id"] "pk_country"]⟩,
    ⟨"destination",
      [⟨"id", "INTEGER", false, none, true, false⟩,
       ⟨"country_id", "INTEGER", true, none, false, true⟩],
      [],
      [.primaryKey ["id"] "pk_destination",
       .foreignKey ["country_id"] "country" ["id"] "fk_destination_country"]⟩]⟩

/-- A three-table chain: `a` references `b`, `b` references `c`. -/
def descChain : MetaDataDesc :=
  ⟨[⟨"a",
      [⟨"id", "INTEGER", true, none, true, false⟩,
       ⟨"b_id", "INTEGER", true, none, false, true⟩],
      [],
      [.foreignKey ["b_id"] "b" ["id"] "fk_a_b"]⟩,
    ⟨"b",
      [⟨"id", "INTEGER", true, none, true, false⟩,
       ⟨"c_id", "INTEGER", true, none, false, true⟩],
      [],
      [.foreignKey ["c_id"] "c" ["id"] "fk_b_c"]⟩,
    ⟨"c",
      [⟨"id", "INTEGER", true, none, true, false⟩],
      [],
      []⟩]⟩

/-- A diamond: `s` references both `x` and `y`, each of which references
`e` — two relation chains of equal length 2 connect `s` and `e`. -/
def descDiamond : MetaDataDesc :=
  ⟨[⟨"s",
      [⟨"id", "INTEGER", true, none, true, false⟩,
       ⟨"x_id", "INTEGER", true, none, false, true⟩,
       ⟨"y_id", "INTEGER", true, none, false, true⟩],
      [],
      [.foreignKey ["x_id"] "x" ["id"] "fk_s_x",
       .foreignKey ["y_id"] "y" ["id"] "fk_s_y"]⟩,
    ⟨"x",
      [⟨"id", "INTEGER", true, none, true, false⟩,
       ⟨"e_id", "INTEGER", true, none, false, true⟩],
      [],
      [.foreignKey ["e_id"] "e" ["id"] "fk_x_e"]⟩,
    ⟨"y",
      [⟨"id", "INTEGER", true, none, true, false⟩,
       ⟨"e_id", "INTEGER", true, none, false, true⟩],
      [],
      [.foreignKey ["e_id"] "e" ["id"] "fk_y_e"]⟩,
    ⟨"e",
      [⟨"id", "INTEGER", true, none, true, false⟩],
      [],
      []⟩]⟩

/-- The composite-foreign-key schema with the default removed from `child.x`. -/
def descCompositeNoDefault : MetaDataDesc :=
  ⟨[⟨"parent",
      [⟨"a", "INTEGER", false, none, true, false⟩,
       ⟨"b", "INTEGER", false, none, true, false⟩],
      [],
      [.primaryKey ["a", "b"] "pk_parent"]⟩,
    ⟨"child",
      [⟨"x", "INTEGER", true, none, false, true⟩,
       ⟨"y", "INTEGER", true, none, false, true⟩],
      [],
      [.foreignKey ["x", "y"] "parent" ["a", "b"] "fk_child_parent"]⟩]⟩

/-- The single-foreign-key schema with the default removed from
`country.name`. -/
def descSingleFKNoDefault : MetaDataDesc :=
  ⟨[⟨"country",
      [⟨"id", "INTEGER", false, none, true, false⟩,
       ⟨"name", "VARCHAR", true, none, false, false⟩],
      [],
      [.primaryKey ["id"] "pk_country"]⟩,
    ⟨"destination",
      [⟨"id", "INTEGER", false, none, true, false⟩,
       ⟨"country_id", "INTEGER", true, none, false, true⟩],
      [],
      [.primaryKey ["id"] "pk_destination",
       .foreignKey ["country_id"] "country" ["id"] "fk_destination_country"]⟩]⟩

/-- On the same composite-key schema without any defaulted column, the build
does fail with the composite-key `ValueError` — the claimed rejection is the
code's behavior whenever the default-keyword slip is not hit first. -/
theorem composite_without_default_fails_with_value_error :
    containsCompositeFK descCompositeNoDefault = true ∧
    convert descCompositeNoDefault = .error (.valueError composite_key_message) := by
  refine ⟨by decide, by decide⟩

/-- On the single-foreign-key schema without any defaulted column, the build
succeeds with exactly one `ManyToOne` relation linked into both tables — the
claimed graph shape whenever the default-keyword slip is not hit. -/
theorem single_fk_without_default_builds_one_relation :
    (Graph.build descSingleFKNoDefault "sqlalchemy").map
        (fun g => (g.edges.map (fun r => (r.source.table_name, r.source.name,
            r.target.table_name, r.target.name, r.relationship_type)),
          g.nodes.map (fun t => (t.name, t.relationships.length)))) =
      .ok ([("destination", "country_id", "country", "id", "ManyToOne")],
        [("country", 1), ("destination", 1)]) := by
  rfl

/-- Claim C1: the claim says every schema with a composite foreign key fails
with `CompositeKeyUnsupported`.  At `descCompositeWithDefault` — a schema
containing a composite foreign key — the build fails already in pass 1 with
a `TypeError` (the `DefaultConstraint` call passes keyword `default` for the
parameter `default_value`), not with the composite-key `ValueError`. -/
theorem composite_with_default_fails_with_type_error :
    containsCompositeFK descCompositeWithDefault = true ∧
    convert descCompositeWithDefault =
      .error (.typeError default_keyword_type_error_message) ∧
    convert descCompositeWithDefault ≠ .error (.valueError composite_key_message) := by
  refine ⟨by decide, by decide, by decide⟩

/-- Claim C2: the claim says every schema whose foreign keys are all
single-column builds a graph with one Relation per foreign key.  At
`descSingleFKWithDefault` — all foreign keys single-column — the build
raises `TypeError` in pass 1 (the `DefaultConstraint` keyword slip) and no
graph or Relation is produced. -/
theorem single_fk_with_default_builds_no_graph :
    allFKsSingleColumn descSingleFKWithDefault = true ∧
    Graph.build descSingleFKWithDefault "sqlalchemy" =
      .error (.typeError default_keyword_type_error_message) := by
  refine ⟨by decide, by decide⟩

/-- Claim C4: the claim says path resolution performs BFS over the undirected
view of the Relation edges and returns a shortest chain for every connected
pair.  In `descChain` the converted graph's relation edges connect `a`—`b`—`c`,
yet `find_shortest_path` from table `a` to `c` raises `KeyError` on the
string `"b"`: `Database.build_graph` keys its adjacency by `Table` objects
while storing neighbor name strings, so the BFS cannot look up any dequeued
neighbor. -/
theorem chain_path_raises_key_error :
    (Graph.build descChain "sqlalchemy").map
        (fun g => g.edges.map (fun r => (r.source.table_name, r.target.table_name))) =
      .ok [("a", "b"), ("b", "c")] ∧
    find_shortest_path (db_build_graph descChain) (.table "a") (.str "c") =
      .error (.keyError (pyStrRepr "b")) := by
  refine ⟨by decide, by decide⟩

/-- Claim C5: the claim says ties (several equal-length shortest paths) are
reported as `AmbiguousPath` with all candidates enumerated.  In `descDiamond`
two relation chains of length two connect `s` and `e` (via `x` and via `y`),
but `find_shortest_path` raises `KeyError` on the first dequeued neighbor
string; no ambiguity detection exists anywhere in the code. -/
theorem diamond_tie_raises_key_error :
    (Graph.build descDiamond "sqlalchemy").map
        (fun g => g.edges.map (fun r => (r.source.table_name, r.target.table_name))) =
      .ok [("s", "x"), ("s", "y"), ("x", "e"), ("y", "e")] ∧
    db_build_graph descDiamond =
      [(.table "s", ["x", "y"]), (.table "x", ["e"]),
       (.table "y", ["e"]), (.table "e", [])] ∧
    find_shortest_path (db_build_graph descDiamond) (.table "s") (.str "e") =
      .error (.keyError (pyStrRepr "x")) := by
  refine ⟨by decide, by decide, by decide⟩

/-! ## Theorems for claims C6–C10 -/

/-- Claim C6: before any resolution, `find_join_path` checks every required
table against the schema's tables and, when any are absent, fails with one
diagnostic reporting exactly the complete list of absent names. -/
theorem find_join_path_reports_all_missing (all_tables required : List String)
    (h : ∃ t ∈ required, t ∉ all_tables) :
    find_join_path all_tables required =
      .error (join_path_error_message (missing_tables all_tables required)) ∧
    (∀ t ∈ required, t ∉ all_tables → t ∈ missing_tables all_tables required) ∧
    (∀ t ∈ missing_tables all_tables required, t ∈ required ∧ t ∉ all_tables) := by
  obtain ⟨t, ht, hnt⟩ := h
  have hmem : t ∈ missing_tables all_tables required := by
    simp [missing_tables, List.mem_filter, ht, hnt]
  have hne : (missing_tables all_tables required).isEmpty = false := by
    cases hcase : missing_tables all_tables required with
    | nil => rw [hcase] at hmem; exact absurd hmem (List.not_mem_nil t)
    | cons a l => rfl
  refine ⟨?_, ?_, ?_⟩
  · simp [find_join_path, hne]
  · intro u hu hnu
    simp [missing_tables, List.mem_filter, hu, hnu]
  · intro u hu
    have := List.mem_filter.mp hu
    refine ⟨this.1, ?_⟩
    simpa using this.2

/-- Witness for C6: with schema tables `["a"]` and required `["b", "c", "a"]`,
the single failure reports both `b` and `c`. -/
theorem find_join_path_reports_all_missing_witness :
    find_join_path ["a"] ["b", "c", "a"] =
      .error (join_path_error_message (missing_tables ["a"] ["b", "c", "a"])) ∧
    (∀ t ∈ ["b", "c", "a"], t ∉ ["a"] → t ∈ missing_tables ["a"] ["b", "c", "a"]) ∧
    (∀ t ∈ missing_tables ["a"] ["b", "c", "a"], t ∈ ["b", "c", "a"] ∧ t ∉ ["a"]) :=
  find_join_path_reports_all_missing ["a"] ["b", "c", "a"] (by decide)

/-- Claim C7: constructing a `Graph` with an unregistered schema type fails
with a `ValueError` identifying the unsupported type and the available
registered types, and produces no graph. -/
theorem unsupported_schema_type_fails (schema : MetaDataDesc) (schema_type : String)
    (h : schema_type ≠ "sqlalchemy") :
    Graph.build schema schema_type =
      .error (.valueError
        ("Error: Unsupported schema type \x27" ++ schema_type ++
         "\x27, available types are: [" ++ available_types_string ++ "]")) ∧
    available_types_string = "sqlalchemy" := by
  have hfind : SCHEMA_CONVERTERS.find? (fun p => p.1 = schema_type) = none := by
    have hne2 : ¬("sqlalchemy" = schema_type) := fun hh => h hh.symm
    simp [SCHEMA_CONVERTERS, hne2]
  have hl : load_converter schema_type =
      .error (.valueError
        ("Error: Unsupported schema type \x27" ++ schema_type ++
         "\x27, available types are: [" ++ available_types_string ++ "]")) := by
    unfold load_converter
    rw [hfind]
  refine ⟨?_, by rfl⟩
  unfold Graph.build
  rw [hl]
  rfl

/-- Witness for C7: building with schema type `"postgres"` fails with the
diagnostic naming it and the sole registered type. -/
theorem unsupported_schema_type_fails_witness :
    Graph.build ⟨[]⟩ "postgres" =
      .error (.valueError
        ("Error: Unsupported schema type \x27postgres\x27, available types are: [" ++
         available_types_string ++ "]")) ∧
    available_types_string = "sqlalchemy" :=
  unsupported_schema_type_fails ⟨[]⟩ "postgres" (by decide)

/-- Claim C8 counterexample: a source column flagged foreign AND primary with
a target flagged primary AND foreign satisfies the claim's hypothesis
(source FK, target PK), yet the derived kind is `OneToMany`, because that
branch is tested first. -/
theorem relation_kind_counterexample :
    (Column.mk "child" "id" "INTEGER" true none true true).is_foreign_key = true ∧
    (Column.mk "parent" "id" "INTEGER" true none true true).is_primary_key = true ∧
    (Relationship.make 0 (Column.mk "child" "id" "INTEGER" true none true true)
        (Column.mk "parent" "id" "INTEGER" true none true true)).relationship_type =
      "OneToMany" ∧
    (Relationship.make 0 (Column.mk "child" "id" "INTEGER" true none true true)
        (Column.mk "parent" "id" "INTEGER" true none true true)).relationship_type ≠
      "ManyToOne" := by
  refine ⟨rfl, rfl, rfl, by decide⟩

/-- Claim C8 (amended): when the source column is flagged foreign and the
target primary, and the pair does not also match the `OneToMany` pattern
tested first (source primary and target foreign), the derived kind is
`ManyToOne`. -/
theorem relation_kind_many_to_one (id : Nat) (s t : Column)
    (hf : s.is_foreign_key = true) (hp : t.is_primary_key = true)
    (hno : ¬(s.is_primary_key = true ∧ t.is_foreign_key = true)) :
    (Relationship.make id s t).relationship_type = "ManyToOne" := by
  unfold Relationship.make determine_relationship_type
  cases hsp : s.is_primary_key <;> cases htf : t.is_foreign_key <;>
    simp_all

/-- Witness for C8 (amended): the ordinary child-FK → parent-PK relation is
classified `ManyToOne`. -/
theorem relation_kind_many_to_one_witness :
    (Relationship.make 1 (Column.mk "destination" "country_id" "INTEGER" true none false true)
        (Column.mk "country" "id" "INTEGER" true none true false)).relationship_type =
      "ManyToOne" :=
  relation_kind_many_to_one 1
    (Column.mk "destination" "country_id" "INTEGER" true none false true)
    (Column.mk "country" "id" "INTEGER" true none true false)
    (by decide) (by decide) (by decide)

/-- Claim C9: `get_column_by_name` returns the stored column when the name is
present; when absent it returns `None` without `throw_error` and raises a
`ValueError` naming the missing column and the table with `throw_error`. -/
theorem get_column_by_name_spec (t : Table) (nm : String) :
    (∀ c b, t.columns.find? (fun x => x.name = nm) = some c →
        t.get_column_by_name nm b = .ok (some c)) ∧
    ((∀ c ∈ t.columns, c.name ≠ nm) →
        t.get_column_by_name nm false = .ok none ∧
        t.get_column_by_name nm true =
          .error ("Column \x27" ++ nm ++ "\x27 not found in table \x27" ++ t.name ++ "\x27")) := by
  constructor
  · intro c b h
    unfold Table.get_column_by_name Table.get_col?
    rw [h]
  · intro h
    have hf : t.columns.find? (fun x => x.name = nm) = none := by
      apply List.find?_eq_none.mpr
      intro x hx
      simp [h x hx]
    constructor <;> unfold Table.get_column_by_name Table.get_col? <;> rw [hf] <;> rfl

/-- Witness for C9: lookup of a present and of an absent column name on a
concrete table. -/
theorem get_column_by_name_spec_witness :
    (Table.mk "country" [Column.mk "country" "id" "INTEGER" true none true false] [] []).get_column_by_name "id" true =
      .ok (some (Column.mk "country" "id" "INTEGER" true none true false)) ∧
    (Table.mk "country" [Column.mk "country" "id" "INTEGER" true none true false] [] []).get_column_by_name "name" false =
      .ok none ∧
    (Table.mk "country" [Column.mk "country" "id" "INTEGER" true none true false] [] []).get_column_by_name "name" true =
      .error ("Column \x27name\x27 not found in table \x27country\x27") := by
  refine ⟨(get_column_by_name_spec (Table.mk "country" [Column.mk "country" "id" "INTEGER" true none true false] [] []) "id").1
      (Column.mk "country" "id" "INTEGER" true none true false) true (by decide), ?_, ?_⟩
  · exact ((get_column_by_name_spec (Table.mk "country" [Column.mk "country" "id" "INTEGER" true none true false] [] []) "name").2 (by decide)).1
  · exact ((get_column_by_name_spec (Table.mk "country" [Column.mk "country" "id" "INTEGER" true none true false] [] []) "name").2 (by decide)).2

/-- Claim C10: `add_relationship` and `add_argument` are idempotent on already
contained elements and preserve duplicate-freeness of the lists. -/
theorem add_relationship_argument_idempotent (t : Table) (r : Relationship) (a : Argument) :
    (r ∈ t.relationships → t.add_relationship r = t) ∧
    (a ∈ t.arguments → t.add_argument a = t) ∧
    (t.relationships.Nodup → ((t.add_relationship r).relationships).Nodup) ∧
    (t.arguments.Nodup → ((t.add_argument a).arguments).Nodup) := by
  refine ⟨?_, ?_, ?_, ?_⟩
  · intro h
    unfold Table.add_relationship
    rw [if_pos h]
  · intro h
    unfold Table.add_argument
    rw [if_pos h]
  · intro h
    unfold Table.add_relationship
    by_cases hm : r ∈ t.relationships
    · rw [if_pos hm]
      exact h
    · rw [if_neg hm]
      simpa [List.nodup_append] using ⟨h, hm⟩
  · intro h
    unfold Table.add_argument
    by_cases hm : a ∈ t.arguments
    · rw [if_pos hm]
      exact h
    · rw [if_neg hm]
      simpa [List.nodup_append] using ⟨h, hm⟩

/-- Witness for C10 at a concrete table already containing the relationship
and the argument. -/
theorem add_relationship_argument_idempotent_witness :
    ((Table.mk "t" [] [Relationship.make 5 (Column.mk "t" "c" "INTEGER" true none false false) (Column.mk "t" "c" "INTEGER" true none false false)] [Argument.notNull 6 "t" "c"]).add_relationship
        (Relationship.make 5 (Column.mk "t" "c" "INTEGER" true none false false) (Column.mk "t" "c" "INTEGER" true none false false)) =
      Table.mk "t" [] [Relationship.make 5 (Column.mk "t" "c" "INTEGER" true none false false) (Column.mk "t" "c" "INTEGER" true none false false)] [Argument.notNull 6 "t" "c"]) ∧
    ((Table.mk "t" [] [Relationship.make 5 (Column.mk "t" "c" "INTEGER" true none false false) (Column.mk "t" "c" "INTEGER" true none false false)] [Argument.notNull 6 "t" "c"]).add_argument
        (Argument.notNull 6 "t" "c") =
      Table.mk "t" [] [Relationship.make 5 (Column.mk "t" "c" "INTEGER" true none false false) (Column.mk "t" "c" "INTEGER" true none false false)] [Argument.notNull 6 "t" "c"]) := by
  have h := add_relationship_argument_idempotent
    (Table.mk "t" [] [Relationship.make 5 (Column.mk "t" "c" "INTEGER" true none false false) (Column.mk "t" "c" "INTEGER" true none false false)] [Argument.notNull 6 "t" "c"])
    (Relationship.make 5 (Column.mk "t" "c" "INTEGER" true none false false) (Column.mk "t" "c" "INTEGER" true none false false))
    (Argument.notNull 6 "t" "c")
  exact ⟨h.1 (by decide), h.2.1 (by decide)⟩

/-! ## Theorem for claim C3 (spec-modelled insertion engine) -/

/-- Every table contributes exactly one outcome per input row. -/
lemma processTable_length (strict : Bool) (lookup : String → Nat → Option Nat)
    (t : ResolvedTable) (rowCount nextKey : Nat) :
    (processTable strict lookup t rowCount nextKey).1.length = rowCount := by
  unfold processTable
  have key : ∀ (l : List Nat) (acc : List RowOutcome × Nat),
      ((l.foldl
        (fun (acc : List RowOutcome × Nat) i =>
          (acc.1 ++ [(rowOutcome strict lookup t i acc.2).1],
           (rowOutcome strict lookup t i acc.2).2)) acc).1).length =
        acc.1.length + l.length := by
    intro l
    induction l with
    | nil => intro acc; simp
    | cons x xs ih =>
        intro acc
        rw [List.foldl_cons, ih]
        simp
        omega
  rw [key]
  simp

/-- `bump` on an inserted outcome. -/
lemma bump_inserted (acc : InsertReport) (k : Nat) :
    bump acc (.inserted k) = { acc with insertedCount := acc.insertedCount + 1 } := rfl

/-- `bump` on a matched outcome. -/
lemma bump_matched (acc : InsertReport) (k : Nat) :
    bump acc (.matched k) = { acc with matchedCount := acc.matchedCount + 1 } := rfl

/-- `bump` on an ambiguous outcome. -/
lemma bump_ambiguous (acc : InsertReport) (k : Nat) :
    bump acc (.ambiguous k) = { acc with ambiguousCount := acc.ambiguousCount + 1 } := rfl

/-- `bump` on a failed outcome. -/
lemma bump_failed (acc : InsertReport) (s : String) :
    bump acc (.failed s) = { acc with failedCount := acc.failedCount + 1 } := rfl

/-- Folding `bump` over an outcome list leaves `waves` and `results` alone and
adds the per-kind filter counts to the counters. -/
lemma bump_foldl_spec (os : List RowOutcome) : ∀ (r : InsertReport),
    (os.foldl bump r).waves = r.waves ∧
    (os.foldl bump r).results = r.results ∧
    (os.foldl bump r).insertedCount =
      r.insertedCount + (os.filter RowOutcome.isInserted).length ∧
    (os.foldl bump r).matchedCount =
      r.matchedCount + (os.filter RowOutcome.isMatched).length ∧
    (os.foldl bump r).ambiguousCount =
      r.ambiguousCount + (os.filter RowOutcome.isAmbiguous).length ∧
    (os.foldl bump r).failedCount =
      r.failedCount + (os.filter RowOutcome.isFailed).length := by
  induction os with
  | nil => intro r; simp
  | cons o os ih =>
      intro r
      rw [List.foldl_cons]
      obtain ⟨h1, h2, h3, h4, h5, h6⟩ := ih (bump r o)
      cases o <;>
        simp only [bump_inserted, bump_matched, bump_ambiguous, bump_failed]
          at h1 h2 h3 h4 h5 h6 <;>
        refine ⟨?_, ?_, ?_, ?_, ?_, ?_⟩ <;>
          simp [h1, h2, h3, h4, h5, h6, bump_inserted, bump_matched, bump_ambiguous,
            bump_failed, RowOutcome.isInserted, RowOutcome.isMatched,
            RowOutcome.isAmbiguous, RowOutcome.isFailed] <;>
          omega

/-- `countRows` over a cons. -/
lemma countRows_cons (p : RowOutcome → Bool) (b : TableOutcomes) (l : List TableOutcomes) :
    countRows p (b :: l) = (b.outcomes.filter p).length + countRows p l := by
  simp [countRows]

/-- One `runTable` step: the report gains one outcome block for the table and
the counters gain that block's per-kind counts. -/
lemma runTable_spec (strict : Bool) (lookup : String → Nat → Option Nat) (rowCount : Nat)
    (st : InsertReport × Nat) (t : ResolvedTable) :
    (runTable strict lookup rowCount st t).1.waves = st.1.waves ∧
    (runTable strict lookup rowCount st t).1.results =
      st.1.results ++ [⟨t.name, (processTable strict lookup t rowCount st.2).1⟩] ∧
    (runTable strict lookup rowCount st t).1.insertedCount =
      st.1.insertedCount +
        (((processTable strict lookup t rowCount st.2).1).filter RowOutcome.isInserted).length ∧
    (runTable strict lookup rowCount st t).1.matchedCount =
      st.1.matchedCount +
        (((processTable strict lookup t rowCount st.2).1).filter RowOutcome.isMatched).length ∧
    (runTable strict lookup rowCount st t).1.ambiguousCount =
      st.1.ambiguousCount +
        (((processTable strict lookup t rowCount st.2).1).filter RowOutcome.isAmbiguous).length ∧
    (runTable strict lookup rowCount st t).1.failedCount =
      st.1.failedCount +
        (((processTable strict lookup t rowCount st.2).1).filter RowOutcome.isFailed).length := by
  obtain ⟨h1, h2, h3, h4, h5, h6⟩ :=
    bump_foldl_spec ((processTable strict lookup t rowCount st.2).1) st.1
  unfold runTable
  refine ⟨?_, ?_, ?_, ?_, ?_, ?_⟩ <;> simp [h1, h2, h3, h4, h5, h6]

/-- Processing a list of tables appends one block per table, in order, each
with one outcome per row, and adds the blocks' per-kind counts. -/
lemma runTables_spec (strict : Bool) (lookup : String → Nat → Option Nat) (rowCount : Nat) :
    ∀ (ts : List ResolvedTable) (st : InsertReport × Nat),
    ∃ added : List TableOutcomes,
      (ts.foldl (runTable strict lookup rowCount) st).1.waves = st.1.waves ∧
      (ts.foldl (runTable strict lookup rowCount) st).1.results = st.1.results ++ added ∧
      added.map (fun e => e.table) = ts.map (fun t => t.name) ∧
      (∀ e ∈ added, e.outcomes.length = rowCount) ∧
      (ts.foldl (runTable strict lookup rowCount) st).1.insertedCount =
        st.1.insertedCount + countRows RowOutcome.isInserted added ∧
      (ts.foldl (runTable strict lookup rowCount) st).1.matchedCount =
        st.1.matchedCount + countRows RowOutcome.isMatched added ∧
      (ts.foldl (runTable strict lookup rowCount) st).1.ambiguousCount =
        st.1.ambiguousCount + countRows RowOutcome.isAmbiguous added ∧
      (ts.foldl (runTable strict lookup rowCount) st).1.failedCount =
        st.1.failedCount + countRows RowOutcome.isFailed added := by
  intro ts
  induction ts with
  | nil =>
      intro st
      exact ⟨[], by simp [countRows]⟩
  | cons t ts ih =>
      intro st
      obtain ⟨g1, g2, g3, g4, g5, g6⟩ :=
        runTable_spec strict lookup rowCount st t
      obtain ⟨added, h1, h2, h3, h4, h5, h6, h7, h8⟩ :=
        ih (runTable strict lookup rowCount st t)
      have hp : (TableOutcomes.mk t.name (processTable strict lookup t rowCount st.2).1).outcomes =
          (processTable strict lookup t rowCount st.2).1 := rfl
      refine ⟨⟨t.name, (processTable strict lookup t rowCount st.2).1⟩ :: added,
        ?_, ?_, ?_, ?_, ?_, ?_, ?_, ?_⟩
      · rw [List.foldl_cons, h1, g1]
      · rw [List.foldl_cons, h2, g2]
        simp
      · simp [h3]
      · intro e he
        rcases List.mem_cons.mp he with he | he
        · rw [he]
          exact processTable_length strict lookup t rowCount st.2
        · exact h4 e he
      · rw [List.foldl_cons, h5, g3, countRows_cons, hp]
        omega
      · rw [List.foldl_cons, h6, g4, countRows_cons, hp]
        omega
      · rw [List.foldl_cons, h7, g5, countRows_cons, hp]
        omega
      · rw [List.foldl_cons, h8, g6, countRows_cons, hp]
        omega

/-- `countRows` over an append. -/
lemma countRows_append (p : RowOutcome → Bool) (l1 l2 : List TableOutcomes) :
    countRows p (l1 ++ l2) = countRows p l1 + countRows p l2 := by
  simp [countRows]

/-- Running the waves in order appends, wave by wave, one block per table. -/
lemma runWaves_spec (strict : Bool) (lookup : String → Nat → Option Nat) (rowCount : Nat) :
    ∀ (waves : List (List ResolvedTable)) (st : InsertReport × Nat),
    ∃ added : List TableOutcomes,
      (runWaves strict lookup rowCount waves st).1.waves = st.1.waves ∧
      (runWaves strict lookup rowCount waves st).1.results = st.1.results ++ added ∧
      added.map (fun e => e.table) =
        (waves.map (fun w => w.map (fun t => t.name))).flatten ∧
      (∀ e ∈ added, e.outcomes.length = rowCount) ∧
      (runWaves strict lookup rowCount waves st).1.insertedCount =
        st.1.insertedCount + countRows RowOutcome.isInserted added ∧
      (runWaves strict lookup rowCount waves st).1.matchedCount =
        st.1.matchedCount + countRows RowOutcome.isMatched added ∧
      (runWaves strict lookup rowCount waves st).1.ambiguousCount =
        st.1.ambiguousCount + countRows RowOutcome.isAmbiguous added ∧
      (runWaves strict lookup rowCount waves st).1.failedCount =
        st.1.failedCount + countRows RowOutcome.isFailed added := by
  intro waves
  induction waves with
  | nil =>
      intro st
      exact ⟨[], by simp [runWaves, countRows]⟩
  | cons w ws ih =>
      intro st
      obtain ⟨a1, g1, g2, g3, g4, g5, g6, g7, g8⟩ :=
        runTables_spec strict lookup rowCount w st
      obtain ⟨a2, h1, h2, h3, h4, h5, h6, h7, h8⟩ :=
        ih (runWave strict lookup rowCount st w)
      have hw : runWaves strict lookup rowCount (w :: ws) st =
          runWaves strict lookup rowCount ws (runWave strict lookup rowCount st w) := by
        simp [runWaves]
      refine ⟨a1 ++ a2, ?_, ?_, ?_, ?_, ?_, ?_, ?_, ?_⟩
      · rw [hw, h1]
        exact g1
      · rw [hw, h2]
        unfold runWave
        rw [g2, List.append_assoc]
      · simp [h3, g3]
      · intro e he
        rcases List.mem_append.mp he with he | he
        · exact g4 e he
        · exact h4 e he
      · rw [hw, h5]
        unfold runWave
        rw [g5, countRows_append]
        omega
      · rw [hw, h6]
        unfold runWave
        rw [g6, countRows_append]
        omega
      · rw [hw, h7]
        unfold runWave
        rw [g7, countRows_append]
        omega
      · rw [hw, h8]
        unfold runWave
        rw [g8, countRows_append]
        omega

/-- Claim C3 (modelled from the spec, the repository's insert bodies being
stubs): whenever wave computation succeeds, `insertRun` returns an
`InsertReport` whose `waves` are the ordered wave summaries, whose `results`
hold exactly one outcome block per table of each wave in order with one
outcome per input row, and whose overall counters equal the tallies of
inserted / matched / ambiguous / failed outcomes. -/
theorem insert_report_spec (m : List ResolvedTable) (rowCount : Nat)
    (lookup : String → Nat → Option Nat) (strict : Bool)
    (ws : List (List ResolvedTable)) (h : computeWaves m = .ok ws) :
    ∃ r, insertRun m rowCount lookup strict = .ok r ∧
      r.waves = ws.map (fun w => w.map (fun t => t.name)) ∧
      r.results.map (fun e => e.table) =
        (ws.map (fun w => w.map (fun t => t.name))).flatten ∧
      (∀ e ∈ r.results, e.outcomes.length = rowCount) ∧
      r.insertedCount = countRows RowOutcome.isInserted r.results ∧
      r.matchedCount = countRows RowOutcome.isMatched r.results ∧
      r.ambiguousCount = countRows RowOutcome.isAmbiguous r.results ∧
      r.failedCount = countRows RowOutcome.isFailed r.results := by
  have hrun : insertRun m rowCount lookup strict =
      .ok (runWaves strict lookup rowCount ws
        (⟨ws.map (fun w => w.map (fun t => t.name)), [], 0, 0, 0, 0⟩, 0)).1 := by
    unfold insertRun
    rw [h]
    rfl
  obtain ⟨added, h1, h2, h3, h4, h5, h6, h7, h8⟩ :=
    runWaves_spec strict lookup rowCount ws
      (⟨ws.map (fun w => w.map (fun t => t.name)), [], 0, 0, 0, 0⟩, 0)
  refine ⟨_, hrun, ?_, ?_, ?_, ?_, ?_, ?_, ?_⟩
  · rw [h1]
  · rw [h2]
    simpa using h3
  · intro e he
    rw [h2] at he
    exact h4 e (by simpa using he)
  · rw [h5, h2]
    simp
  · rw [h6, h2]
    simp
  · rw [h7, h2]
    simp
  · rw [h8, h2]
    simp

/-- Witness for C3: a two-table mapping (`traveler` depends on `country`)
with one row and an empty store yields the two waves and matching counts. -/
theorem insert_report_spec_witness :
    ∃ r, insertRun
        [⟨"country", [], false, true⟩, ⟨"traveler", ["country"], false, true⟩]
        1 (fun _ _ => none) false = .ok r ∧
      r.waves = ([[⟨"country", [], false, true⟩], [⟨"traveler", ["country"], false, true⟩]] :
          List (List ResolvedTable)).map (fun w => w.map (fun t => t.name)) ∧
      r.results.map (fun e => e.table) =
        (([[⟨"country", [], false, true⟩], [⟨"traveler", ["country"], false, true⟩]] :
          List (List ResolvedTable)).map (fun w => w.map (fun t => t.name))).flatten ∧
      (∀ e ∈ r.results, e.outcomes.length = 1) ∧
      r.insertedCount = countRows RowOutcome.isInserted r.results ∧
      r.matchedCount = countRows RowOutcome.isMatched r.results ∧
      r.ambiguousCount = countRows RowOutcome.isAmbiguous r.results ∧
      r.failedCount = countRows RowOutcome.isFailed r.results :=
  insert_report_spec
    [⟨"country", [], false, true⟩, ⟨"traveler", ["country"], false, true⟩]
    1 (fun _ _ => none) false
    [[⟨"country", [], false, true⟩], [⟨"traveler", ["country"], false, true⟩]]
    (by decide)

end Schemanyd
